import Mathlib

/-!
Verification development for the homework_bot repository
(src/homework.py and src/exceptions.py).

The Python module is embedded shallowly: the pure functions
`check_tokens`, `check_response` and `parse_status` become Lean
functions; the body of `main`'s `while True` loop becomes a step
function `runCycle` over an explicit state `BotState`
(`timestamp`, `error_message`, `last_message`), with the outcomes of
the two external calls (`get_api_answer`, `bot.send_message`) supplied
as inputs of the cycle.  Python exception objects are modelled as a
pair of an instance identity and a message text, because the code
compares exceptions with `!=`, which for these exception classes is
object identity.
-/

namespace HomeworkBot

/-- One raw record of the `homeworks` array.  `none` models an absent
key (Python `dict.get` returning `None`). -/
structure RawRecord where
  homework_name : Option String
  status : Option String
deriving DecidableEq

/-- The raw API response: a mapping that may or may not carry the
`homeworks` key (as a list) and the `current_date` key (as an int). -/
structure RawResponse where
  homeworks : Option (List RawRecord)
  current_date : Option Int
deriving DecidableEq

/-- A Python exception instance: an object identity plus the message
text `str(e)` renders.  None of the exception classes used by the code
(`RequestException`, `TypeError`, `KeyError`, `CantSendMessageError`)
override `__eq__`, so `!=` between two of them is object identity,
modelled by `instanceId`. -/
structure PyError where
  instanceId : Nat
  text : String
deriving DecidableEq

/-- The `error_message` variable of `main`: initialised to the string
`""`, later assigned exception objects (`error_message = error`). -/
inductive ErrSlot
  | initStr
  | stored (e : PyError)
deriving DecidableEq

/-- Python `error != error_message`: an exception never equals the
string `""`, and two exceptions are equal only when they are the same
object. -/
def pyErrorNeSlot (e : PyError) : ErrSlot → Bool
  | ErrSlot.initStr => true
  | ErrSlot.stored e2 => e.instanceId != e2.instanceId

/-- The loop-local mutable state of `main`. -/
structure BotState where
  timestamp : Int
  error_message : ErrSlot
  last_message : String
deriving DecidableEq

/-- The three module-level secrets read from the environment;
`none` models `os.getenv` returning `None`. -/
structure Config where
  PRACTICUM_TOKEN : Option String
  TELEGRAM_TOKEN : Option String
  TELEGRAM_CHAT_ID : Option String
deriving DecidableEq

/-- `check_tokens`: the three names are always bound at module level
(so `token in globals()` is true), hence the check reduces to each
value being non-`None`.  The function returns a boolean; despite its
docstring it raises nothing. -/
def check_tokens (cfg : Config) : Bool :=
  cfg.PRACTICUM_TOKEN.isSome && cfg.TELEGRAM_TOKEN.isSome &&
    cfg.TELEGRAM_CHAT_ID.isSome

/-- Startup portion of `main`: it calls `check_tokens` but discards the
returned boolean, then unconditionally builds the bot and enters the
`while True` loop, so the loop is entered for every configuration. -/
def mainEntersLoop (cfg : Config) : Bool :=
  let _ := check_tokens cfg
  true

/-- The module-level `HOMEWORK_VERDICTS` mapping (defined in the source
but never consulted by `parse_status`). -/
def HOMEWORK_VERDICTS : List (String × String) :=
  [("approved", "Работа проверена: ревьюеру всё понравилось. Ура!"),
   ("reviewing", "Работа взята на проверку ревьюером."),
   ("rejected", "Работа проверена: у ревьюера есть замечания.")]

/-- Modelled from the spec: the notification text mandated by the spec
for StatusRecordParser, the fixed form
`Изменился статус проверки работы "{name}". {verdict}` with the
verdict looked up in the VerdictCatalog (`HOMEWORK_VERDICTS`).  The
source's `parse_status` does not produce this form; this definition
exists only to compare the two. -/
def specNotificationText (name status : String) : Option String :=
  (HOMEWORK_VERDICTS.lookup status).map
    (fun verdict =>
      "Изменился статус проверки работы \"" ++ name ++ "\". " ++ verdict)

/-- Outcome of `check_response`: the returned list, or the raised
`TypeError`'s message. -/
inductive CheckResult
  | ok (hws : List RawRecord)
  | typeError (msg : String)
deriving DecidableEq

/-- `check_response`.  The source condition is
`isinstance(response, dict) and all(key for key in ("current_date",
"homeworks")) and isinstance(response.get("homeworks"), list)`.
The first conjunct is true on our domain (a `RawResponse` is a dict);
the second iterates over the two key *strings* themselves and tests
their truthiness — both are non-empty strings, so it is the constant
`True` and never inspects `response`; the third is true exactly when
the `homeworks` key is present (absent gives `None`, which is not a
list).  On failure the function raises
`TypeError("Структура данных не соответствует ожиданиям")`. -/
def check_response (response : RawResponse) : CheckResult :=
  match response.homeworks with
  | some hws => CheckResult.ok hws
  | none => CheckResult.typeError "Структура данных не соответствует ожиданиям"

/-- The tuple `current_status` local to `parse_status`. -/
def current_status : List String :=
  ["rejected", "reviewing", "approved", "denied"]

/-- Python `homework_status not in current_status` is true when the
status is absent (`None` is not in the tuple) or not listed. -/
def statusListed : Option String → Bool
  | some s => current_status.contains s
  | none => false

/-- `parse_status`.  Despite its docstring it raises nothing: on a
missing/empty name or an unlisted status it logs and returns the
string `"Неверный ответ сервера"`; otherwise it renders
`У вас проверили работу "{homework_name}"!\n\n{verdict}` from its own
hardcoded verdict strings (not from `HOMEWORK_VERDICTS`).  In the
rendering branch the name is known to be a non-empty string, so
`getD ""` is exact. -/
def parse_status (homework : RawRecord) : String :=
  let homework_name := homework.homework_name
  let homework_status := homework.status
  if (homework_name == none || homework_name == some "") ||
      !(statusListed homework_status) then
    "Неверный ответ сервера"
  else
    let verdict :=
      if homework_status == some "rejected" then
        "К сожалению, в работе нашлись ошибки."
      else if homework_status == some "reviewing" then
        "Работа взята в ревью. Ждите вердикта!"
      else
        "Ревьюеру всё понравилось, работа зачтена!"
    "У вас проверили работу \"" ++ homework_name.getD "" ++ "\"!\n\n" ++
      verdict

/-- Message text of the `CantSendMessageError` raised by
`send_message` when the telegram call fails. -/
def cantSendMessageText : String :=
  "Невозможно отправить сообщение в Telegram"

/-- Text of `str(KeyError("current_date"))`, the exception raised by
`response["current_date"]` when the key is absent. -/
def keyErrorCurrentDateText : String := "\x27current_date\x27"

/-- Outcome of `get_api_answer` for one cycle: either the parsed JSON
response, or the exception the fetch raised (network failure, non-200
status or malformed payload). -/
inductive FetchResult
  | netError (e : PyError)
  | ok (response : RawResponse)
deriving DecidableEq

/-- Per-cycle external inputs: the fetch outcome, whether each
`bot.send_message` call (status path, error path) would succeed, and a
fresh object identity for any exception the cycle itself raises (each
`raise` creates a new object; at most one exception propagates per
try block).  Distinct cycles must be given distinct `freshId`s and
fetch-error identities, as Python never reuses a live exception
object across raises. -/
structure CycleInput where
  fetch : FetchResult
  sendStatusOk : Bool
  sendErrorOk : Bool
  freshId : Nat
deriving DecidableEq

/-- One `bot.send_message` invocation: the text passed to the Notifier
and whether delivery succeeded. -/
structure SendAttempt where
  text : String
  ok : Bool
deriving DecidableEq

/-- Result of the `try` block of one loop iteration: the exception
that escaped it (if any), the values of `timestamp` and
`last_message` after it (assignments before the raise survive), and
the send attempts it made. -/
structure TryResult where
  raised : Option PyError
  timestamp : Int
  last_message : String
  events : List SendAttempt
deriving DecidableEq

/-- The `try` block of `main`'s loop:
`response = get_api_answer(timestamp)`;
`homeworks = check_response(response)`;
`if homeworks:` parse the FIRST record only, send the message if it
differs from `last_message` and record it on success;
finally `timestamp = response["current_date"]` (a `KeyError` if the
key is absent, only reachable through the `check_response` gap). -/
def runTry (st : BotState) (inp : CycleInput) : TryResult :=
  match inp.fetch with
  | FetchResult.netError e =>
      ⟨some e, st.timestamp, st.last_message, []⟩
  | FetchResult.ok response =>
    match check_response response with
    | CheckResult.typeError msg =>
        ⟨some ⟨inp.freshId, msg⟩, st.timestamp, st.last_message, []⟩
    | CheckResult.ok homeworks =>
      let notified : Option PyError × String × List SendAttempt :=
        if homeworks.isEmpty then (none, st.last_message, [])
        else
          let message := parse_status (homeworks.headD ⟨none, none⟩)
          if message != st.last_message then
            if inp.sendStatusOk then
              (none, message, [⟨message, true⟩])
            else
              (some ⟨inp.freshId, cantSendMessageText⟩,
               st.last_message, [⟨message, false⟩])
          else (none, st.last_message, [])
      match notified with
      | (some e, lm, evs) => ⟨some e, st.timestamp, lm, evs⟩
      | (none, lm, evs) =>
        match response.current_date with
        | some d => ⟨none, d, lm, evs⟩
        | none =>
            ⟨some ⟨inp.freshId, keyErrorCurrentDateText⟩,
             st.timestamp, lm, evs⟩

/-- Outcome of one full loop iteration: either the loop reaches the
`finally` block and continues with a new state, or an exception
escapes `main` (the error-path `send_message` raising
`CantSendMessageError`, which nothing catches) and the process dies. -/
inductive CycleResult
  | next (st : BotState) (events : List SendAttempt)
  | crash (events : List SendAttempt)
deriving DecidableEq

/-- Send attempts made during the cycle, whichever way it ended. -/
def CycleResult.events : CycleResult → List SendAttempt
  | CycleResult.next _ evs => evs
  | CycleResult.crash evs => evs

/-- One full iteration of `main`'s `while True` loop: run the `try`
block; on an escaped exception run the `except` handler, which sends
`Сбой в работе программы: {error}` when `error != error_message`
(object identity against the slot) and only afterwards stores the
exception object into the slot — so a failed error delivery both
escapes `main` and leaves the slot unchanged. -/
def runCycle (st : BotState) (inp : CycleInput) : CycleResult :=
  let t := runTry st inp
  match t.raised with
  | none => CycleResult.next ⟨t.timestamp, st.error_message, t.last_message⟩ t.events
  | some e =>
    if pyErrorNeSlot e st.error_message then
      let message := "Сбой в работе программы: " ++ e.text
      if inp.sendErrorOk then
        CycleResult.next ⟨t.timestamp, ErrSlot.stored e, t.last_message⟩
          (t.events ++ [⟨message, true⟩])
      else
        CycleResult.crash (t.events ++ [⟨message, false⟩])
    else
      CycleResult.next ⟨t.timestamp, st.error_message, t.last_message⟩ t.events

/-- Names defined at top level of src/exceptions.py. -/
def exceptionsModuleNames : List String :=
  ["CustomTlgError", "CustomNoTlgError", "CustomRequestError",
   "CustomTypeError", "CustomKeyError", "CustomTokenValidationError",
   "CustomTlgSendMessageError"]

/-- Names src/homework.py imports from the exceptions module
(`from exceptions import CantSendMessageError`). -/
def homeworkImportedNames : List String := ["CantSendMessageError"]

/-- Characterisation of the cursor field of the try block: if the
block raises, `timestamp` keeps its previous value (the assignment is
the block's last statement); if it completes, `timestamp` was set to
the `current_date` of the fetched response. -/
theorem runTry_timestamp_char (st : BotState) (inp : CycleInput) :
    (∀ e, (runTry st inp).raised = some e →
      (runTry st inp).timestamp = st.timestamp) ∧
    ((runTry st inp).raised = none →
      ∃ r, inp.fetch = FetchResult.ok r ∧
        r.current_date = some ((runTry st inp).timestamp)) := by
  obtain ⟨fetch, sOk, eOk, fid⟩ := inp
  cases fetch with
  | netError e2 =>
    exact ⟨fun e h => rfl, fun h => by simp [runTry] at h⟩
  | ok r =>
    obtain ⟨hwks, cdate⟩ := r
    cases hwks with
    | none =>
      exact ⟨fun e h => rfl, fun h => by simp [runTry, check_response] at h⟩
    | some hws =>
      cases hws with
      | nil =>
        cases cdate with
        | none =>
          exact ⟨fun e h => rfl,
                 fun h => by simp [runTry, check_response] at h⟩
        | some d =>
          exact ⟨fun e h => by simp [runTry, check_response] at h,
                 fun h => ⟨⟨some [], some d⟩, rfl,
                   by simp [runTry, check_response]⟩⟩
      | cons hw rest =>
        by_cases hb : (parse_status hw != st.last_message) = true
        · cases sOk with
          | false =>
            exact ⟨fun e h => by simp [runTry, check_response, hb],
                   fun h => by simp [runTry, check_response, hb] at h⟩
          | true =>
            cases cdate with
            | none =>
              exact ⟨fun e h => by simp [runTry, check_response, hb],
                     fun h => by simp [runTry, check_response, hb] at h⟩
            | some d =>
              exact ⟨fun e h => by simp [runTry, check_response, hb] at h,
                     fun h => ⟨⟨some (hw :: rest), some d⟩, rfl,
                       by simp [runTry, check_response, hb]⟩⟩
        · cases cdate with
          | none =>
            exact ⟨fun e h => by simp [runTry, check_response, hb],
                   fun h => by simp [runTry, check_response, hb] at h⟩
          | some d =>
            exact ⟨fun e h => by simp [runTry, check_response, hb] at h,
                   fun h => ⟨⟨some (hw :: rest), some d⟩, rfl,
                     by simp [runTry, check_response, hb]⟩⟩

/-- If the try block completes without raising, the loop continues
with the state the block computed, leaving the error slot untouched. -/
theorem runCycle_raised_none (st : BotState) (inp : CycleInput)
    (h : (runTry st inp).raised = none) :
    runCycle st inp =
      CycleResult.next
        ⟨(runTry st inp).timestamp, st.error_message,
         (runTry st inp).last_message⟩
        (runTry st inp).events := by
  simp only [runCycle, h]

/-- A cycle whose response carries a fresh first record (its rendered
message differs from `last_message`), whose status delivery succeeds
and whose response carries `current_date`: the try block completes,
sends exactly that message, records it and advances the cursor. -/
theorem runTry_fresh (st : BotState) (inp : CycleInput) (r : RawResponse)
    (hw : RawRecord) (rest : List RawRecord) (d : Int)
    (hf : inp.fetch = FetchResult.ok r)
    (hh : r.homeworks = some (hw :: rest))
    (hnew : parse_status hw ≠ st.last_message)
    (hs : inp.sendStatusOk = true)
    (hd : r.current_date = some d) :
    runTry st inp = ⟨none, d, parse_status hw, [⟨parse_status hw, true⟩]⟩ := by
  simp [runTry, hf, check_response, hh, hs, hd, hnew]

/-- A cycle whose response's first record renders exactly the
previously recorded `last_message`: the send is suppressed, no attempt
is made, and the cursor still advances. -/
theorem runTry_dup (st : BotState) (inp : CycleInput) (r : RawResponse)
    (hw : RawRecord) (rest : List RawRecord) (d : Int)
    (hf : inp.fetch = FetchResult.ok r)
    (hh : r.homeworks = some (hw :: rest))
    (hdup : parse_status hw = st.last_message)
    (hd : r.current_date = some d) :
    runTry st inp = ⟨none, d, st.last_message, []⟩ := by
  simp [runTry, hf, check_response, hh, hd, hdup]

/-- C1: Scenario A on the code as written.  For the response
`{"homeworks": [{"homework_name":"hw1","status":"approved"}],
"current_date": 1000}` a full successful cycle produces exactly one
notification and the cursor becomes 1000, but the text is the
hardcoded `У вас проверили работу "hw1"!\n\nРевьюеру всё понравилось,
работа зачтена!`, not the spec's rendering
`Изменился статус проверки работы "hw1". {verdict}` with the verdict
looked up from `HOMEWORK_VERDICTS`, which `parse_status` never
consults: the claim's text is wrong on the code. -/
theorem c1_scenario_a_eval :
    runCycle ⟨0, ErrSlot.initStr, ""⟩
      ⟨FetchResult.ok ⟨some [⟨some "hw1", some "approved"⟩], some 1000⟩,
       true, true, 5⟩ =
      CycleResult.next
        ⟨1000, ErrSlot.initStr,
         "У вас проверили работу \"hw1\"!\n\nРевьюеру всё понравилось, работа зачтена!"⟩
        [⟨"У вас проверили работу \"hw1\"!\n\nРевьюеру всё понравилось, работа зачтена!",
          true⟩] ∧
    specNotificationText "hw1" "approved" =
      some "Изменился статус проверки работы \"hw1\". Работа проверена: ревьюеру всё понравилось. Ура!" ∧
    "У вас проверили работу \"hw1\"!\n\nРевьюеру всё понравилось, работа зачтена!" ≠
      "Изменился статус проверки работы \"hw1\". Работа проверена: ревьюеру всё понравилось. Ура!" := by
  exact ⟨by decide, by decide, by decide⟩

/-- C2: a response with `homeworks` present but `current_date` absent
passes `check_response` (its key check tests the truthiness of the key
strings, not their presence in the response), and `parse_status` IS
invoked on the first record — a notification is even sent — before
`response["current_date"]` raises `KeyError`: the claim fails on the
code for this half of its inputs. -/
theorem c2_missing_current_date_eval :
    check_response ⟨some [⟨some "hw1", some "approved"⟩], none⟩ =
      CheckResult.ok [⟨some "hw1", some "approved"⟩] ∧
    runTry ⟨0, ErrSlot.initStr, ""⟩
      ⟨FetchResult.ok ⟨some [⟨some "hw1", some "approved"⟩], none⟩,
       true, true, 3⟩ =
      ⟨some ⟨3, keyErrorCurrentDateText⟩, 0,
       "У вас проверили работу \"hw1\"!\n\nРевьюеру всё понравилось, работа зачтена!",
       [⟨"У вас проверили работу \"hw1\"!\n\nРевьюеру всё понравилось, работа зачтена!",
         true⟩]⟩ := by
  exact ⟨by decide, by decide⟩

/-- C3: Scenario C on the code as written.  For the response
`{"homeworks": [{"homework_name":"hw1","status":"pending"}],
"current_date": 1000}`, `parse_status` does not raise (despite its
docstring): it returns the string `Неверный ответ сервера`, which the
loop then SENDS as a status notification, and the cursor ADVANCES to
1000 — no `RecordInvalid` error is reported and the cursor does not
stay unchanged, contradicting the claim. -/
theorem c3_unknown_status_eval :
    runCycle ⟨0, ErrSlot.initStr, ""⟩
      ⟨FetchResult.ok ⟨some [⟨some "hw1", some "pending"⟩], some 1000⟩,
       true, true, 4⟩ =
      CycleResult.next ⟨1000, ErrSlot.initStr, "Неверный ответ сервера"⟩
        [⟨"Неверный ответ сервера", true⟩] := by
  decide

/-- C4: two consecutive cycles failing with the identical error text
`Endpoint unavailable` each trigger an error notification.  The code
compares the fresh exception object against the stored one
(`error != error_message`, object identity), so the second cycle's
distinct exception instance is never equal to the first and the
suppression never fires: the messaging channel receives the same error
text twice, contradicting the claim. -/
theorem c4_error_dedup_eval :
    runCycle ⟨500, ErrSlot.initStr, ""⟩
      ⟨FetchResult.netError ⟨0, "Endpoint unavailable"⟩, true, true, 10⟩ =
      CycleResult.next ⟨500, ErrSlot.stored ⟨0, "Endpoint unavailable"⟩, ""⟩
        [⟨"Сбой в работе программы: Endpoint unavailable", true⟩] ∧
    runCycle ⟨500, ErrSlot.stored ⟨0, "Endpoint unavailable"⟩, ""⟩
      ⟨FetchResult.netError ⟨1, "Endpoint unavailable"⟩, true, true, 11⟩ =
      CycleResult.next ⟨500, ErrSlot.stored ⟨1, "Endpoint unavailable"⟩, ""⟩
        [⟨"Сбой в работе программы: Endpoint unavailable", true⟩] := by
  exact ⟨by decide, by decide⟩

/-- C5 counterexample: a successful cycle whose response carries TWO
records produces exactly one notification, rendered from the first
record only; no attempt with the second record's text is ever made, so
the loop does not process the full ordered sequence with one
notification per record as the claim states. -/
theorem c5_first_record_only_cex :
    (runCycle ⟨0, ErrSlot.initStr, ""⟩
      ⟨FetchResult.ok
        ⟨some [⟨some "hw1", some "approved"⟩, ⟨some "hw2", some "rejected"⟩],
         some 1000⟩, true, true, 6⟩).events =
      [⟨"У вас проверили работу \"hw1\"!\n\nРевьюеру всё понравилось, работа зачтена!",
        true⟩] ∧
    ¬ (∃ ev ∈ (runCycle ⟨0, ErrSlot.initStr, ""⟩
      ⟨FetchResult.ok
        ⟨some [⟨some "hw1", some "approved"⟩, ⟨some "hw2", some "rejected"⟩],
         some 1000⟩, true, true, 6⟩).events,
        ev.text = parse_status ⟨some "hw2", some "rejected"⟩) := by
  exact ⟨by decide, by decide⟩

/-- C6 counterexample: (i) a fully successful cycle sets the cursor to
the response's `current_date` even when that is SMALLER than the
previous cursor (2000 → 1000), so the cursor does not only increase or
stay the same; (ii) a cycle whose fetch and validation both succeed
but whose status delivery fails leaves the cursor unchanged, so the
cursor is not advanced exactly when the fetch-and-validate pair
succeeds. -/
theorem c6_cursor_cex :
    runCycle ⟨2000, ErrSlot.initStr, ""⟩
      ⟨FetchResult.ok ⟨some [], some 1000⟩, true, true, 0⟩ =
      CycleResult.next ⟨1000, ErrSlot.initStr, ""⟩ [] ∧
    check_response ⟨some [⟨some "hw1", some "approved"⟩], some 1000⟩ =
      CheckResult.ok [⟨some "hw1", some "approved"⟩] ∧
    runCycle ⟨0, ErrSlot.initStr, ""⟩
      ⟨FetchResult.ok ⟨some [⟨some "hw1", some "approved"⟩], some 1000⟩,
       false, true, 2⟩ =
      CycleResult.next ⟨0, ErrSlot.stored ⟨2, cantSendMessageText⟩, ""⟩
        [⟨"У вас проверили работу \"hw1\"!\n\nРевьюеру всё понравилось, работа зачтена!",
          false⟩,
         ⟨"Сбой в работе программы: Невозможно отправить сообщение в Telegram",
          true⟩] := by
  exact ⟨by decide, by decide, by decide⟩

/-- C7 counterexample: when the error-path delivery fails, the
`CantSendMessageError` raised by `send_message` escapes the loop
(nothing catches it) and the iteration ends in a crash, with the
last-reported-error slot never updated — the failure is not swallowed,
contradicting the claim. -/
theorem c7_error_delivery_cex :
    runCycle ⟨0, ErrSlot.initStr, ""⟩
      ⟨FetchResult.netError ⟨0, "boom"⟩, true, false, 1⟩ =
      CycleResult.crash [⟨"Сбой в работе программы: boom", false⟩] := by
  decide

/-- C8: with `PRACTICUM_TOKEN` unset, `check_tokens` merely returns
`false` (despite a docstring promising to raise), and `main` discards
that boolean and unconditionally enters the poll loop: the process
does not terminate before the loop as the claim requires. -/
theorem c8_missing_token_eval :
    check_tokens ⟨none, some "tg-token", some "chat-id"⟩ = false ∧
    mainEntersLoop ⟨none, some "tg-token", some "chat-id"⟩ = true := by
  exact ⟨by decide, by decide⟩

/-- C10: `homework.py` does `from exceptions import
CantSendMessageError`, but `exceptions.py` defines no such name (it
defines `CustomTlgSendMessageError` instead), so loading the main
module raises `ImportError` and execution never reaches
`check_tokens` or the poll loop — the claim fails on the code. -/
theorem c10_import_missing_name :
    "CantSendMessageError" ∈ homeworkImportedNames ∧
    "CantSendMessageError" ∉ exceptionsModuleNames := by
  exact ⟨by decide, by decide⟩

/-- C5 (amended): in every cycle whose fetch and validation succeed,
only the FIRST record of the returned list is processed — the cycle
makes at most one notification attempt, and any attempt it makes
carries the text rendered from the first record; the remaining records
are ignored in that cycle. -/
theorem c5_first_record_amended (st : BotState) (inp : CycleInput)
    (r : RawResponse) (hw : RawRecord) (rest : List RawRecord)
    (hf : inp.fetch = FetchResult.ok r)
    (hh : r.homeworks = some (hw :: rest)) :
    (runTry st inp).events = [] ∨
      ∃ b, (runTry st inp).events = [⟨parse_status hw, b⟩] := by
  by_cases hb : (parse_status hw != st.last_message) = true
  · by_cases hs : inp.sendStatusOk = true
    · cases hd : r.current_date with
      | none =>
        exact Or.inr ⟨true,
          by simp [runTry, hf, check_response, hh, hb, hs, hd]⟩
      | some d =>
        exact Or.inr ⟨true,
          by simp [runTry, hf, check_response, hh, hb, hs, hd]⟩
    · exact Or.inr ⟨false,
        by simp [runTry, hf, check_response, hh, hb, hs]⟩
  · cases hd : r.current_date with
    | none =>
      exact Or.inl (by simp [runTry, hf, check_response, hh, hb, hd])
    | some d =>
      exact Or.inl (by simp [runTry, hf, check_response, hh, hb, hd])

/-- Witness for the amended C5 theorem at a concrete two-record
response. -/
theorem c5_first_record_amended_witness :
    (⟨FetchResult.ok
        ⟨some [⟨some "hw1", some "approved"⟩, ⟨some "hw2", some "rejected"⟩],
         some 1000⟩, true, true, 6⟩ : CycleInput).fetch =
      FetchResult.ok
        ⟨some [⟨some "hw1", some "approved"⟩, ⟨some "hw2", some "rejected"⟩],
         some 1000⟩ ∧
    ((runTry ⟨0, ErrSlot.initStr, ""⟩
        ⟨FetchResult.ok
          ⟨some [⟨some "hw1", some "approved"⟩, ⟨some "hw2", some "rejected"⟩],
           some 1000⟩, true, true, 6⟩).events = [] ∨
      ∃ b, (runTry ⟨0, ErrSlot.initStr, ""⟩
        ⟨FetchResult.ok
          ⟨some [⟨some "hw1", some "approved"⟩, ⟨some "hw2", some "rejected"⟩],
           some 1000⟩, true, true, 6⟩).events =
        [⟨parse_status ⟨some "hw1", some "approved"⟩, b⟩]) :=
  ⟨rfl,
   c5_first_record_amended ⟨0, ErrSlot.initStr, ""⟩ _
     ⟨some [⟨some "hw1", some "approved"⟩, ⟨some "hw2", some "rejected"⟩],
      some 1000⟩
     ⟨some "hw1", some "approved"⟩ [⟨some "hw2", some "rejected"⟩] rfl rfl⟩

/-- C6 (amended): the cursor is set to the response's `current_date`
exactly when the whole try block completes without an exception (which
requires fetch, validation and any attempted status delivery to
succeed and `current_date` to be present); after a cycle whose try
block raises, the continuing state keeps the previous cursor.  The
cursor is not monotone in general — it is set to whatever
`current_date` the response carries — and a successful
fetch-and-validate pair alone does not advance it (see the
counterexample). -/
theorem c6_cursor_amended :
    (∀ (st : BotState) (inp : CycleInput) (r : RawResponse) (d : Int),
        inp.fetch = FetchResult.ok r → r.current_date = some d →
        (runTry st inp).raised = none →
        runCycle st inp =
          CycleResult.next
            ⟨d, st.error_message, (runTry st inp).last_message⟩
            (runTry st inp).events) ∧
    (∀ (st : BotState) (inp : CycleInput) (e : PyError) (st2 : BotState)
        (evs : List SendAttempt),
        (runTry st inp).raised = some e →
        runCycle st inp = CycleResult.next st2 evs →
        st2.timestamp = st.timestamp) := by
  constructor
  · intro st inp r d hf hd hn
    obtain ⟨r2, hf2, hts⟩ := (runTry_timestamp_char st inp).2 hn
    rw [hf] at hf2
    cases hf2
    rw [hd] at hts
    have hdd : (runTry st inp).timestamp = d := by
      injection hts with h2
      exact h2.symm
    rw [runCycle_raised_none st inp hn, hdd]
  · intro st inp e st2 evs hr hc
    have hts := (runTry_timestamp_char st inp).1 e hr
    simp only [runCycle, hr] at hc
    by_cases hne : pyErrorNeSlot e st.error_message = true
    · rw [if_pos hne] at hc
      by_cases hs : inp.sendErrorOk = true
      · rw [if_pos hs] at hc
        injection hc with h1 h2
        subst h1
        exact hts
      · rw [if_neg hs] at hc
        cases hc
    · rw [if_neg hne] at hc
      injection hc with h1 h2
      subst h1
      exact hts

/-- Witness for the amended C6 theorem: a completing cycle sets the
cursor to 1000, and a cycle whose try block raises keeps cursor 500. -/
theorem c6_cursor_amended_witness :
    ((⟨FetchResult.ok ⟨some [], some 1000⟩, true, true, 0⟩ :
        CycleInput).fetch = FetchResult.ok ⟨some [], some 1000⟩ ∧
     (runTry ⟨0, ErrSlot.initStr, ""⟩
        ⟨FetchResult.ok ⟨some [], some 1000⟩, true, true, 0⟩).raised = none ∧
     runCycle ⟨0, ErrSlot.initStr, ""⟩
        ⟨FetchResult.ok ⟨some [], some 1000⟩, true, true, 0⟩ =
       CycleResult.next ⟨1000, ErrSlot.initStr, ""⟩ []) ∧
    ((runTry ⟨500, ErrSlot.initStr, ""⟩
        ⟨FetchResult.netError ⟨0, "x"⟩, true, true, 1⟩).raised =
          some ⟨0, "x"⟩ ∧
     runCycle ⟨500, ErrSlot.initStr, ""⟩
        ⟨FetchResult.netError ⟨0, "x"⟩, true, true, 1⟩ =
       CycleResult.next ⟨500, ErrSlot.stored ⟨0, "x"⟩, ""⟩
         [⟨"Сбой в работе программы: x", true⟩] ∧
     (⟨500, ErrSlot.stored ⟨0, "x"⟩, ""⟩ : BotState).timestamp = 500) :=
  ⟨⟨rfl, rfl,
    c6_cursor_amended.1 ⟨0, ErrSlot.initStr, ""⟩
      ⟨FetchResult.ok ⟨some [], some 1000⟩, true, true, 0⟩
      ⟨some [], some 1000⟩ 1000 rfl rfl rfl⟩,
   ⟨rfl, by decide,
    c6_cursor_amended.2 ⟨500, ErrSlot.initStr, ""⟩
      ⟨FetchResult.netError ⟨0, "x"⟩, true, true, 1⟩ ⟨0, "x"⟩
      ⟨500, ErrSlot.stored ⟨0, "x"⟩, ""⟩
      [⟨"Сбой в работе программы: x", true⟩] rfl (by decide)⟩⟩

/-- C7 (amended): on the error path, when the rendered failure message
is due (the exception differs from the stored slot) and its delivery
fails, the `CantSendMessageError` raised by `send_message` escapes the
loop and the iteration ends in a crash — the failure is escalated, the
loop terminates, and the last-reported-error slot is never updated on
this path (it is updated only when the error delivery succeeds). -/
theorem c7_error_delivery_amended (st : BotState) (inp : CycleInput)
    (e : PyError)
    (hr : (runTry st inp).raised = some e)
    (hne : pyErrorNeSlot e st.error_message = true)
    (hs : inp.sendErrorOk = false) :
    runCycle st inp =
      CycleResult.crash
        ((runTry st inp).events ++
         [⟨"Сбой в работе программы: " ++ e.text, false⟩]) := by
  simp [runCycle, hr, hne, hs]

/-- Witness for the amended C7 theorem at a concrete failing fetch. -/
theorem c7_error_delivery_amended_witness :
    (runTry ⟨0, ErrSlot.initStr, ""⟩
      ⟨FetchResult.netError ⟨3, "down"⟩, true, false, 4⟩).raised =
        some ⟨3, "down"⟩ ∧
    pyErrorNeSlot ⟨3, "down"⟩ ErrSlot.initStr = true ∧
    (⟨FetchResult.netError ⟨3, "down"⟩, true, false, 4⟩ :
       CycleInput).sendErrorOk = false ∧
    runCycle ⟨0, ErrSlot.initStr, ""⟩
      ⟨FetchResult.netError ⟨3, "down"⟩, true, false, 4⟩ =
      CycleResult.crash
        ((runTry ⟨0, ErrSlot.initStr, ""⟩
           ⟨FetchResult.netError ⟨3, "down"⟩, true, false, 4⟩).events ++
         [⟨"Сбой в работе программы: " ++ "down", false⟩]) :=
  ⟨rfl, by decide, rfl,
   c7_error_delivery_amended ⟨0, ErrSlot.initStr, ""⟩
     ⟨FetchResult.netError ⟨3, "down"⟩, true, false, 4⟩ ⟨3, "down"⟩
     rfl (by decide) rfl⟩

/-- C9: status-notification delivery is idempotent under repetition —
if a cycle successfully delivers the rendered message of its first
record and the next cycle renders the same text, the second cycle
makes no notification attempt at all: across the two cycles the
Notifier is invoked exactly once for that text, suppressed by
comparison with `last_message`, which holds the last successfully sent
message. -/
theorem c9_status_dedup (st0 : BotState) (inp1 inp2 : CycleInput)
    (r1 r2 : RawResponse) (hw1 hw2 : RawRecord)
    (rest1 rest2 : List RawRecord) (m : String) (d1 d2 : Int)
    (hf1 : inp1.fetch = FetchResult.ok r1)
    (hh1 : r1.homeworks = some (hw1 :: rest1))
    (hm1 : parse_status hw1 = m)
    (hnew : m ≠ st0.last_message)
    (hsend : inp1.sendStatusOk = true)
    (hd1 : r1.current_date = some d1)
    (hf2 : inp2.fetch = FetchResult.ok r2)
    (hh2 : r2.homeworks = some (hw2 :: rest2))
    (hm2 : parse_status hw2 = m)
    (hd2 : r2.current_date = some d2) :
    runCycle st0 inp1 =
      CycleResult.next ⟨d1, st0.error_message, m⟩ [⟨m, true⟩] ∧
    runCycle ⟨d1, st0.error_message, m⟩ inp2 =
      CycleResult.next ⟨d2, st0.error_message, m⟩ [] := by
  have h1 : runTry st0 inp1 = ⟨none, d1, m, [⟨m, true⟩]⟩ := by
    have hx := runTry_fresh st0 inp1 r1 hw1 rest1 d1 hf1 hh1
      (by rw [hm1]; exact hnew) hsend hd1
    rw [hm1] at hx
    exact hx
  have h2 : runTry ⟨d1, st0.error_message, m⟩ inp2 = ⟨none, d2, m, []⟩ :=
    runTry_dup ⟨d1, st0.error_message, m⟩ inp2 r2 hw2 rest2 d2
      hf2 hh2 hm2 hd2
  constructor
  · have hn : (runTry st0 inp1).raised = none := by rw [h1]
    rw [runCycle_raised_none st0 inp1 hn, h1]
  · have hn : (runTry ⟨d1, st0.error_message, m⟩ inp2).raised = none := by
      rw [h2]
    rw [runCycle_raised_none _ inp2 hn, h2]

/-- Witness for the C9 theorem: Scenario A's response arriving in two
consecutive cycles; the second cycle sends nothing. -/
theorem c9_status_dedup_witness :
    parse_status ⟨some "hw1", some "approved"⟩ =
      "У вас проверили работу \"hw1\"!\n\nРевьюеру всё понравилось, работа зачтена!" ∧
    ("У вас проверили работу \"hw1\"!\n\nРевьюеру всё понравилось, работа зачтена!" ≠
      "") ∧
    runCycle ⟨0, ErrSlot.initStr, ""⟩
      ⟨FetchResult.ok ⟨some [⟨some "hw1", some "approved"⟩], some 1000⟩,
       true, true, 8⟩ =
      CycleResult.next
        ⟨1000, ErrSlot.initStr,
         "У вас проверили работу \"hw1\"!\n\nРевьюеру всё понравилось, работа зачтена!"⟩
        [⟨"У вас проверили работу \"hw1\"!\n\nРевьюеру всё понравилось, работа зачтена!",
          true⟩] ∧
    runCycle
      ⟨1000, ErrSlot.initStr,
       "У вас проверили работу \"hw1\"!\n\nРевьюеру всё понравилось, работа зачтена!"⟩
      ⟨FetchResult.ok ⟨some [⟨some "hw1", some "approved"⟩], some 1000⟩,
       true, true, 8⟩ =
      CycleResult.next
        ⟨1000, ErrSlot.initStr,
         "У вас проверили работу \"hw1\"!\n\nРевьюеру всё понравилось, работа зачтена!"⟩
        [] :=
  ⟨by decide, by decide,
   (c9_status_dedup ⟨0, ErrSlot.initStr, ""⟩
     ⟨FetchResult.ok ⟨some [⟨some "hw1", some "approved"⟩], some 1000⟩,
      true, true, 8⟩
     ⟨FetchResult.ok ⟨some [⟨some "hw1", some "approved"⟩], some 1000⟩,
      true, true, 8⟩
     ⟨some [⟨some "hw1", some "approved"⟩], some 1000⟩
     ⟨some [⟨some "hw1", some "approved"⟩], some 1000⟩
     ⟨some "hw1", some "approved"⟩ ⟨some "hw1", some "approved"⟩ [] []
     "У вас проверили работу \"hw1\"!\n\nРевьюеру всё понравилось, работа зачтена!"
     1000 1000 rfl rfl (by decide) (by decide) rfl rfl rfl rfl (by decide)
     rfl).1,
   (c9_status_dedup ⟨0, ErrSlot.initStr, ""⟩
     ⟨FetchResult.ok ⟨some [⟨some "hw1", some "approved"⟩], some 1000⟩,
      true, true, 8⟩
     ⟨FetchResult.ok ⟨some [⟨some "hw1", some "approved"⟩], some 1000⟩,
      true, true, 8⟩
     ⟨some [⟨some "hw1", some "approved"⟩], some 1000⟩
     ⟨some [⟨some "hw1", some "approved"⟩], some 1000⟩
     ⟨some "hw1", some "approved"⟩ ⟨some "hw1", some "approved"⟩ [] []
     "У вас проверили работу \"hw1\"!\n\nРевьюеру всё понравилось, работа зачтена!"
     1000 1000 rfl rfl (by decide) (by decide) rfl rfl rfl rfl (by decide)
     rfl).2⟩

end HomeworkBot
